import Mathlib

/-!
# Verification of `metadata/createMetadata.py`

A shallow embedding of the script that bulk-creates Dataplex "Aspect Type"
resources: it lists the `*.json` entries of a directory, derives a resource
identifier from each filename, obtains an access token from the `gcloud` CLI,
and issues one HTTP POST (via `curl`) per file.

Strings are modelled as Lean `String`/`List Char`.  Character-level Python
primitives (`str.lower`, `str.strip`, `re.sub`) are modelled at ASCII
granularity: `str.lower` is the identity outside `A`-`Z`, which agrees with
Python on every ASCII character.  External effects (file reads, the `gcloud`
subprocess, the `curl` subprocess) are modelled by an environment record that
fixes each call's outcome, and the script's visible behaviour is a trace of
`Event`s (prints, file opens, token fetches, HTTP POSTs) together with an
`Except` value recording whether a Python exception escapes.  The outcomes of
each external call include the ones the source leaves uncaught — in
particular an OS-level failure to launch the `gcloud` subprocess
(`GcloudResult.osError`), which no `except` clause of the source matches and
which therefore propagates out of the run.
-/

namespace CreateMetadata

/-- ASCII model of Python's `str.lower`, characterwise: maps `A`-`Z` (code
points 65-90) to the corresponding lowercase letter and leaves every other
character unchanged. -/
def pyLowerChar (c : Char) : Char :=
  if 65 ≤ c.toNat && c.toNat ≤ 90 then Char.ofNat (c.toNat + 32) else c

/-- Model of `str.lower` on a whole string (as a character list). -/
def pyLower (s : List Char) : List Char := s.map pyLowerChar

/-- Does the character match the regex class `[a-z0-9]`? -/
def isLowerAlnum (c : Char) : Bool :=
  (97 ≤ c.toNat && c.toNat ≤ 122) || (48 ≤ c.toNat && c.toNat ≤ 57)

/-- Is the character an (ASCII) alphanumeric?  This is the claim-side notion
of "alphanumeric" used to state which filenames are skipped. -/
def isAsciiAlnum (c : Char) : Bool :=
  (65 ≤ c.toNat && c.toNat ≤ 90) || (97 ≤ c.toNat && c.toNat ≤ 122)
    || (48 ≤ c.toNat && c.toNat ≤ 57)

/-- Worker for `re.sub(r'[^a-z0-9]+', '-', s)`: the flag records whether we
are currently inside a run of characters outside `[a-z0-9]` (for which a
single `'-'` has already been emitted). -/
def subAux : Bool → List Char → List Char
  | _, [] => []
  | inRun, c :: cs =>
    if isLowerAlnum c then c :: subAux false cs
    else if inRun then subAux true cs
    else '-' :: subAux true cs

/-- Model of `re.sub(r'[^a-z0-9]+', '-', s)`: every maximal run of characters
outside `[a-z0-9]` is replaced by a single hyphen. -/
def subNonAlnum (s : List Char) : List Char := subAux false s

/-- Drop the characters satisfying `p` from both ends of the list. -/
def stripWhile (p : Char → Bool) (s : List Char) : List Char :=
  ((s.dropWhile p).reverse.dropWhile p).reverse

/-- Model of Python's `str.strip('-')`. -/
def stripHyphens (s : List Char) : List Char := stripWhile (fun c => c == '-') s

/-- ASCII model of Python's whitespace test used by `str.strip()`. -/
def pyIsSpace (c : Char) : Bool :=
  c == ' ' || c == '\t' || c == '\n' || c == '\r' || c == '\x0b' || c == '\x0c'

/-- Model of Python's `str.strip()` (no argument: strips whitespace). -/
def pyStrip (s : String) : String := String.mk (stripWhile pyIsSpace s.data)

/-- Index of the last `'.'` in the list, if any. -/
def findLastDot : List Char → Option Nat
  | [] => none
  | c :: cs =>
    match findLastDot cs with
    | some i => some (i + 1)
    | none => if c == '.' then some 0 else none

/-- Model of `os.path.splitext(p)[0]` for a bare directory entry (no path
separator occurs in a name returned by `os.listdir`): split at the last dot,
except that a name whose characters before the last dot are all dots (a
"hidden file" such as `".json"`) is not split at all. -/
def splitextBase (p : List Char) : List Char :=
  match findLastDot p with
  | none => p
  | some di => if (p.take di).any (fun c => !(c == '.')) then p.take di else p

/-- The resource identifier derived from a definition filename in `main`
(lines 125-127): `base_name = os.path.splitext(filename)[0]`, then
`resource_id = re.sub(r'[^a-z0-9]+', '-', base_name.lower())`, then
`resource_id = resource_id.strip('-')`. -/
def resourceIdOfFilename (filename : String) : String :=
  String.mk (stripHyphens (subNonAlnum (pyLower (splitextBase filename.data))))

/-- The spec's slug of a stem: lowercase, then replace each maximal run of
characters outside `[a-z0-9]` by one hyphen.  No hyphen stripping: this
follows the spec's words, for comparison with `resourceIdOfFilename`. -/
def specSlug (stem : List Char) : List Char := subNonAlnum (pyLower stem)

/-- Remove a trailing `".json"` from a filename, if present: the spec's
notion of the "filename stem". -/
def dropDotJson (f : List Char) : List Char :=
  if ".json".data.isSuffixOf f then f.take (f.length - 5) else f

/-- The resource identifier as the spec's slug definition describes it:
the slug of the filename stem, with no further transformation. -/
def specResourceId (filename : String) : String :=
  String.mk (specSlug (dropDotJson filename.data))

/-! ## Effects: events and per-call outcomes

The script's only observable actions are `print` calls, the `open`/`read` of
a definition file, the `gcloud auth print-access-token` subprocess, and the
`curl` subprocess that performs the HTTP POST.  A run produces a list of
these events; an uncaught Python exception is an `Except.error`. -/

/-- One observable action of the script. -/
inductive Event
  | print (line : String)
  | readFile (path : String)
  | tokenFetch
  | httpPost (url : String) (token : String) (body : String)
deriving DecidableEq

/-- The Python exceptions that the script's own code can raise or handle. -/
inductive PyExc
  | fileNotFoundError
  | valueError (msg : String)
  | calledProcessError (returncode : Int) (stdout : String) (stderr : String)
  | exception (msg : String)
deriving DecidableEq

/-- The text `str(e)` interpolated into an error print. -/
def excText : PyExc → String
  | .fileNotFoundError => "FileNotFoundError"
  | .valueError m => m
  | .calledProcessError rc _ _ => "Command returned non-zero exit status " ++ toString rc ++ "."
  | .exception m => m

/-- Outcome of `open(definition_file_path).read()`. -/
inductive ReadResult
  | ok (contents : String)
  | fileNotFound
  | otherError (msg : String)
deriving DecidableEq

/-- Outcome of `subprocess.run(['gcloud', 'auth', 'print-access-token'], ..., check=True)`:
a completed process with the given stdout, a non-zero exit raising
`CalledProcessError`, or an OS-level failure to launch the subprocess at all —
`subprocess.run` raises `FileNotFoundError` when the `gcloud` binary is absent.
The source's `except` clauses at lines 45-52 name only `CalledProcessError` and
`ValueError`, so the `osError` outcome escapes them. -/
inductive GcloudResult
  | ok (stdout : String)
  | err (returncode : Int) (stdout : String) (stderr : String)
  | osError
deriving DecidableEq

/-- Outcome of the `curl` subprocess: a completed process with stdout, a
non-zero exit (`curl --fail` exits non-zero on an HTTP status >= 400)
raising `CalledProcessError`, or any other exception. -/
inductive CurlResult
  | ok (stdout : String)
  | err (returncode : Int) (stdout : String) (stderr : String)
  | exc (msg : String)
deriving DecidableEq

/-- The environment fixing the outcome of each external call made while
processing one file. -/
structure FileEnv where
  readResult : ReadResult
  gcloudResult : GcloudResult
  curlResult : CurlResult

/-- Model of `open(definition_file_path, 'r')` followed by `f.read()`: emits the file
access and either returns the contents or raises. -/
def readFileStep (r : ReadResult) (path : String) : List Event × Except PyExc String :=
  match r with
  | .ok contents => ([Event.readFile path], Except.ok contents)
  | .fileNotFound => ([Event.readFile path], Except.error PyExc.fileNotFoundError)
  | .otherError m => ([Event.readFile path], Except.error (PyExc.exception m))

/-- The body of the token `try` block (lines 40-44): run `gcloud`, strip its
stdout, and raise `ValueError` when the stripped token is empty. -/
def tokenBlock (g : GcloudResult) : List Event × Except PyExc String :=
  match g with
  | .osError => ([Event.tokenFetch], Except.error PyExc.fileNotFoundError)
  | .err rc so se => ([Event.tokenFetch], Except.error (PyExc.calledProcessError rc so se))
  | .ok so =>
    let access_token := pyStrip so
    if access_token = "" then
      ([Event.tokenFetch], Except.error (PyExc.valueError
        "Empty access token received from gcloud. Please ensure gcloud CLI is configured correctly."))
    else ([Event.tokenFetch], Except.ok access_token)

/-- Model of `subprocess.run(command, ..., check=True)` for the `curl` command: emits
the HTTP POST invocation and either returns stdout or raises. -/
def curlStep (c : CurlResult) (api_url access_token definition : String) :
    List Event × Except PyExc String :=
  match c with
  | .ok so => ([Event.httpPost api_url access_token definition], Except.ok so)
  | .err rc so se =>
    ([Event.httpPost api_url access_token definition],
      Except.error (PyExc.calledProcessError rc so se))
  | .exc m =>
    ([Event.httpPost api_url access_token definition], Except.error (PyExc.exception m))

/-- The API URL built on lines 33-34: the `id_param_name` is consistently
`"aspect_type_id"`. -/
def apiUrl (project_id location api_resource_type resource_id : String) : String :=
  "https://dataplex.googleapis.com/v1/projects/" ++ project_id
    ++ "/locations/" ++ location ++ "/" ++ api_resource_type ++ "?"
    ++ "aspect_type_id" ++ "=" ++ resource_id

/-- The URL template as the spec states it:
`https://dataplex.googleapis.com/v1/projects/{project_id}/locations/{location}/aspectTypes?aspect_type_id={resource_id}`
instantiated with the CLI-supplied project ID and location and the derived
resource ID. -/
def specUrl (project_id location resource_id : String) : String :=
  "https://dataplex.googleapis.com/v1/projects/" ++ project_id
    ++ "/locations/" ++ location ++ "/aspectTypes?aspect_type_id=" ++ resource_id

/-- Embedding of `create_metadata_resource`.  Each `try`/`except` of the
source becomes a match on the corresponding step's `Except` value: a matched
handler prints its messages and returns normally (`Except.ok`), and an
exception no handler of the block matches is propagated (`Except.error`). -/
def create_metadata_resource (env : FileEnv)
    (project_id location api_resource_type resource_id definition_file_path : String) :
    List Event × Except PyExc Unit :=
  let ev0 := Event.print ("Processing '" ++ definition_file_path ++ "' for "
    ++ api_resource_type ++ " ID: '" ++ resource_id ++ "'...")
  match readFileStep env.readResult definition_file_path with
  | (evs, Except.error PyExc.fileNotFoundError) =>
    (ev0 :: evs ++ [Event.print ("Error: Definition file not found: " ++ definition_file_path)],
      Except.ok ())
  | (evs, Except.error e) =>
    (ev0 :: evs ++ [Event.print ("Error reading file " ++ definition_file_path ++ ": "
      ++ excText e)], Except.ok ())
  | (evs, Except.ok definition) =>
    let api_url := apiUrl project_id location api_resource_type resource_id
    match tokenBlock env.gcloudResult with
    | (evs2, Except.error (PyExc.calledProcessError _ _ se)) =>
      (ev0 :: evs ++ evs2 ++
        [Event.print "Error: Could not obtain Google Cloud access token.",
         Event.print "Please ensure gcloud CLI is installed and authenticated (e.g., `gcloud auth application-default login`).",
         Event.print ("Stderr: " ++ se)], Except.ok ())
    | (evs2, Except.error (PyExc.valueError m)) =>
      (ev0 :: evs ++ evs2 ++ [Event.print ("Error obtaining access token: " ++ m)],
        Except.ok ())
    | (evs2, Except.error e) => (ev0 :: evs ++ evs2, Except.error e)
    | (evs2, Except.ok access_token) =>
      match curlStep env.curlResult api_url access_token definition with
      | (evs3, Except.ok result_stdout) =>
        (ev0 :: evs ++ evs2 ++ evs3 ++
          [Event.print ("Successfully created " ++ api_resource_type ++ " with ID: "
            ++ resource_id),
           Event.print result_stdout], Except.ok ())
      | (evs3, Except.error (PyExc.calledProcessError rc so se)) =>
        (ev0 :: evs ++ evs2 ++ evs3 ++
          [Event.print ("\n--- ERROR Creating " ++ api_resource_type ++ " with ID: "
            ++ resource_id ++ " ---"),
           Event.print ("  API URL: " ++ api_url),
           Event.print ("  Definition File: " ++ definition_file_path),
           Event.print ("  Return Code: " ++ toString rc),
           Event.print ("  Stdout: " ++ so),
           Event.print ("  Stderr: " ++ se),
           Event.print "--------------------------------------------------\n"], Except.ok ())
      | (evs3, Except.error e) =>
        (ev0 :: evs ++ evs2 ++ evs3 ++
          [Event.print ("An unexpected error occurred while calling curl for "
            ++ resource_id ++ ": " ++ excText e)], Except.ok ())

/-! ## Embedding of `main` -/

/-- The environment of a whole run: whether `definitions_dir` exists, the
entries `os.listdir` returns (in arbitrary order), and the per-file outcomes
of the external calls.  The model takes the `os.listdir` call itself to
succeed: in the source an existing but unreadable directory makes
`os.listdir` at line 113 raise `PermissionError`, which no handler catches —
the same uncaught-OS-error behaviour that `GcloudResult.osError` exhibits for
the token subprocess, and which the C2 correction records. -/
structure MainEnv where
  dirExists : Bool
  entries : List String
  fileEnv : String → FileEnv

/-- Model of `f.endswith('.json')`. -/
def endsWithJson (f : String) : Bool := ".json".data.isSuffixOf f.data

/-- Model of `os.path.join(dir, name)` for the cases arising here: a name
beginning with a separator is absolute and replaces `dir`; otherwise a `/` is
inserted unless `dir` is empty or already ends with one. -/
def pyJoin (dir name : String) : String :=
  if name.data.head? = some '/' then name
  else if dir = "" || dir.data.getLast? = some '/' then dir ++ name
  else dir ++ "/" ++ name

/-- Lexicographic comparison of character lists by code point, the order
Python's `sorted` uses on strings. -/
def lexLe : List Char → List Char → Bool
  | [], _ => true
  | _ :: _, [] => false
  | a :: as, b :: bs =>
    if a.toNat < b.toNat then true
    else if b.toNat < a.toNat then false
    else lexLe as bs

/-- Lexicographic order on strings, as a proposition. -/
def strLe (a b : String) : Prop := lexLe a.data b.data = true

instance : DecidableRel strLe := fun a b => decEq (lexLe a.data b.data) true

/-- Model of Python's `sorted` on a list of strings.  `sorted` is a stable
sort for the total order `strLe`; since equal strings are identical, any
sorted permutation is the same list, so insertion sort computes it. -/
def sortStrings (l : List String) : List String := l.insertionSort strLe

/-- The body of `main`'s per-file loop (lines 122-142): derive the resource
id from the filename, skip the file with a warning when the id is empty, and
otherwise call `create_metadata_resource`. -/
def processFile (menv : MainEnv) (project_id location definitions_dir filename : String) :
    List Event × Except PyExc Unit :=
  let resource_id := resourceIdOfFilename filename
  if resource_id = "" then
    ([Event.print ("Warning: Could not derive a valid resource ID from filename '"
      ++ filename ++ "'. Skipping this file.")], Except.ok ())
  else
    create_metadata_resource (menv.fileEnv filename) project_id location "aspectTypes"
      resource_id (pyJoin definitions_dir filename)

/-- The `for filename in sorted(json_files)` loop: process each file in turn,
stopping only if an uncaught exception escapes an iteration. -/
def mainLoop (menv : MainEnv) (project_id location definitions_dir : String) :
    List String → List Event × Except PyExc Unit
  | [] => ([], Except.ok ())
  | f :: fs =>
    match processFile menv project_id location definitions_dir f with
    | (evs, Except.ok _) =>
      let r := mainLoop menv project_id location definitions_dir fs
      (evs ++ r.1, r.2)
    | (evs, Except.error e) => (evs, Except.error e)

/-- Embedding of `main` after argument parsing: directory check, selection of
the `.json` entries, the empty-selection message, the count message, and the
sorted per-file loop. -/
def mainRun (menv : MainEnv) (project_id location definitions_dir : String) :
    List Event × Except PyExc Unit :=
  if !menv.dirExists then
    ([Event.print ("Error: Definitions directory not found: '" ++ definitions_dir ++ "'")],
      Except.ok ())
  else
    let json_files := menv.entries.filter endsWithJson
    if json_files.isEmpty then
      ([Event.print ("No .json files found in '" ++ definitions_dir
        ++ "'. Please ensure your definition files are present and end with '.json'. Exiting.")],
        Except.ok ())
    else
      let r := mainLoop menv project_id location definitions_dir (sortStrings json_files)
      (Event.print ("Found " ++ toString json_files.length ++ " JSON definition file(s) in '"
        ++ definitions_dir ++ "'.") :: r.1, r.2)

/-- Is the event an HTTP POST invocation? -/
def isPost : Event → Bool
  | .httpPost _ _ _ => true
  | _ => false

/-- Is the event a token fetch (a `gcloud auth print-access-token` call)? -/
def isTokenFetch : Event → Bool
  | .tokenFetch => true
  | _ => false

/-- Is the event a file open/read? -/
def isRead : Event → Bool
  | .readFile _ => true
  | _ => false

/-! ## Lemmas about the slug pipeline -/

theorem findLastDot_append (xs ys : List Char) (j : Nat) (h : findLastDot ys = some j) :
    findLastDot (xs ++ ys) = some (xs.length + j) := by
  induction xs with
  | nil => simpa using h
  | cons c cs ih =>
    simp only [List.cons_append, findLastDot, List.append_eq, ih, List.length_cons]
    congr 1
    omega

/-- For a filename of the form `stem ++ ".json"` whose stem has a character
other than `'.'`, `os.path.splitext` returns exactly the stem. -/
theorem splitextBase_stem_json (stem : List Char)
    (h : stem.any (fun c => !(c == '.')) = true) :
    splitextBase (stem ++ ".json".data) = stem := by
  have hj : findLastDot ".json".data = some 0 := by decide
  have hfl := findLastDot_append stem ".json".data 0 hj
  have htake : (stem ++ ".json".data).take stem.length = stem := List.take_left stem _
  simp only [splitextBase, hfl, Nat.add_zero, htake, h, if_pos]

/-- C1 (amended): for every definition filename `stem ++ ".json"` whose stem
contains at least one character other than `'.'`, the derived resource ID is
the stem lowercased with every maximal run of characters outside `[a-z0-9]`
replaced by a single hyphen — the spec's slug — and then with leading and
trailing hyphens removed (the `strip('-')` of line 127 that the spec's slug
definition omits). -/
theorem C1_resource_id_slug_amended (stem : String)
    (h : stem.data.any (fun c => !(c == '.')) = true) :
    resourceIdOfFilename (stem ++ ".json") = String.mk (stripHyphens (specSlug stem.data)) := by
  unfold resourceIdOfFilename specSlug
  rw [String.data_append, splitextBase_stem_json stem.data h]

/-- C1 counterexample: on `"_a.json"` the script's resource ID is `"a"`
(the code strips leading/trailing hyphens, line 127), while the spec's slug
of the stem `"_a"` is `"-a"`. -/
theorem C1_resource_id_slug_counterexample :
    resourceIdOfFilename "_a.json" = "a" ∧ specResourceId "_a.json" = "-a" ∧
      resourceIdOfFilename "_a.json" ≠ specResourceId "_a.json" := by
  refine ⟨by decide, by decide, by decide⟩

/-- Witness for the amended C1 at the concrete stem `"_a"`. -/
theorem C1_resource_id_slug_amended_witness :
    resourceIdOfFilename ("_a" ++ ".json") = String.mk (stripHyphens (specSlug "_a".data)) :=
  C1_resource_id_slug_amended "_a" (by decide)

/-! ## Helper lemmas about the trace model -/

/-- The function `create_metadata_resource` lets no exception escape as long
as the `gcloud` subprocess can be launched at all: every other outcome of the
modelled external calls is handled by one of its `except` clauses. -/
theorem create_snd_ok (env : FileEnv) (p l a r d : String)
    (hg : env.gcloudResult ≠ GcloudResult.osError) :
    (create_metadata_resource env p l a r d).2 = Except.ok () := by
  obtain ⟨rr, gr, cr⟩ := env
  cases rr with
  | fileNotFound => rfl
  | otherError m => rfl
  | ok contents =>
    cases gr with
    | osError => exact absurd rfl hg
    | err rc so se => rfl
    | ok so =>
      by_cases hs : pyStrip so = ""
      · simp only [create_metadata_resource, readFileStep, tokenBlock, if_pos hs]
      · cases cr <;>
          simp only [create_metadata_resource, readFileStep, tokenBlock, if_neg hs, curlStep]

/-- A failure to launch the `gcloud` subprocess matches neither of the token
block's `except` clauses (lines 45-52 catch only `CalledProcessError` and
`ValueError`): the `FileNotFoundError` propagates out of
`create_metadata_resource`, after the processing print, the file read, and
the attempted token fetch. -/
theorem create_gcloud_oserror (env : FileEnv) (p l a r d contents : String)
    (hr : env.readResult = ReadResult.ok contents)
    (hg : env.gcloudResult = GcloudResult.osError) :
    create_metadata_resource env p l a r d =
      ([Event.print ("Processing '" ++ d ++ "' for " ++ a ++ " ID: '" ++ r ++ "'..."),
        Event.readFile d, Event.tokenFetch],
       Except.error PyExc.fileNotFoundError) := by
  obtain ⟨rr, gr, cr⟩ := env
  cases hr
  cases hg
  rfl

/-- The loop body lets no exception escape as long as that file's `gcloud`
subprocess can be launched. -/
theorem processFile_snd_ok (menv : MainEnv) (p l d f : String)
    (hg : (menv.fileEnv f).gcloudResult ≠ GcloudResult.osError) :
    (processFile menv p l d f).2 = Except.ok () := by
  by_cases h : resourceIdOfFilename f = ""
  · simp [processFile, h]
  · have hc := create_snd_ok (menv.fileEnv f) p l "aspectTypes"
      (resourceIdOfFilename f) (pyJoin d f) hg
    simp [processFile, h, hc]

/-- When a file's processing raises, the loop stops there: the remaining
files are never considered and the exception propagates. -/
theorem mainLoop_abort (menv : MainEnv) (p l d f : String) (fs : List String)
    (evs : List Event) (e : PyExc)
    (h : processFile menv p l d f = (evs, Except.error e)) :
    mainLoop menv p l d (f :: fs) = (evs, Except.error e) := by
  simp [mainLoop, h]

/-- As long as no listed file's `gcloud` launch fails, the loop processes
every file of its list, in order: its trace is the concatenation of the
per-file traces, and no exception escapes. -/
theorem mainLoop_events_join (menv : MainEnv) (p l d : String) (fs : List String)
    (hg : ∀ f, (menv.fileEnv f).gcloudResult ≠ GcloudResult.osError) :
    mainLoop menv p l d fs =
      ((fs.map (fun f => (processFile menv p l d f).1)).flatten, Except.ok ()) := by
  induction fs with
  | nil => rfl
  | cons f fs ih =>
    have hf := processFile_snd_ok menv p l d f (hg f)
    cases hpf : processFile menv p l d f with
    | mk evs r =>
      rw [hpf] at hf
      cases r with
      | error e => exact absurd hf (by simp)
      | ok u =>
        simp only [mainLoop, hpf, List.map_cons, List.flatten_cons, ih]

/-- The loop body depends on the environment only through the per-file
outcomes. -/
theorem processFile_congr {menv1 menv2 : MainEnv} (h : menv1.fileEnv = menv2.fileEnv)
    (p l d f : String) : processFile menv1 p l d f = processFile menv2 p l d f := by
  unfold processFile
  rw [h]

/-- The loop's result depends on the environment only through the per-file
outcomes. -/
theorem mainLoop_congr {menv1 menv2 : MainEnv} (h : menv1.fileEnv = menv2.fileEnv)
    (p l d : String) (fs : List String) :
    mainLoop menv1 p l d fs = mainLoop menv2 p l d fs := by
  induction fs with
  | nil => rfl
  | cons f fs ih =>
    simp only [mainLoop, processFile_congr h p l d f, ih]

/-- The URL the code builds for `aspectTypes` is the spec's template. -/
theorem apiUrl_eq_specUrl (p l r : String) : apiUrl p l "aspectTypes" r = specUrl p l r := by
  apply String.ext
  simp [apiUrl, specUrl, String.data_append]

theorem create_events_read_fnf (env : FileEnv) (p l a r d : String)
    (h : env.readResult = ReadResult.fileNotFound) :
    (create_metadata_resource env p l a r d).1 =
      [Event.print ("Processing '" ++ d ++ "' for " ++ a ++ " ID: '" ++ r ++ "'..."),
       Event.readFile d,
       Event.print ("Error: Definition file not found: " ++ d)] := by
  simp [create_metadata_resource, readFileStep, h]

theorem create_events_read_exc (env : FileEnv) (p l a r d m : String)
    (h : env.readResult = ReadResult.otherError m) :
    (create_metadata_resource env p l a r d).1 =
      [Event.print ("Processing '" ++ d ++ "' for " ++ a ++ " ID: '" ++ r ++ "'..."),
       Event.readFile d,
       Event.print ("Error reading file " ++ d ++ ": " ++ m)] := by
  simp [create_metadata_resource, readFileStep, excText, h]

theorem create_events_token_err (env : FileEnv) (p l a r d contents : String)
    (rc : Int) (so se : String)
    (hr : env.readResult = ReadResult.ok contents)
    (hg : env.gcloudResult = GcloudResult.err rc so se) :
    (create_metadata_resource env p l a r d).1 =
      [Event.print ("Processing '" ++ d ++ "' for " ++ a ++ " ID: '" ++ r ++ "'..."),
       Event.readFile d,
       Event.tokenFetch,
       Event.print "Error: Could not obtain Google Cloud access token.",
       Event.print "Please ensure gcloud CLI is installed and authenticated (e.g., `gcloud auth application-default login`).",
       Event.print ("Stderr: " ++ se)] := by
  simp [create_metadata_resource, readFileStep, tokenBlock, hr, hg]

theorem create_events_token_empty (env : FileEnv) (p l a r d contents so : String)
    (hr : env.readResult = ReadResult.ok contents)
    (hg : env.gcloudResult = GcloudResult.ok so)
    (hs : pyStrip so = "") :
    (create_metadata_resource env p l a r d).1 =
      [Event.print ("Processing '" ++ d ++ "' for " ++ a ++ " ID: '" ++ r ++ "'..."),
       Event.readFile d,
       Event.tokenFetch,
       Event.print ("Error obtaining access token: "
         ++ "Empty access token received from gcloud. Please ensure gcloud CLI is configured correctly.")] := by
  simp [create_metadata_resource, readFileStep, tokenBlock, hr, hg, hs]

theorem create_events_curl_ok (env : FileEnv) (p l a r d contents so out : String)
    (hr : env.readResult = ReadResult.ok contents)
    (hg : env.gcloudResult = GcloudResult.ok so)
    (hs : pyStrip so ≠ "")
    (hc : env.curlResult = CurlResult.ok out) :
    (create_metadata_resource env p l a r d).1 =
      [Event.print ("Processing '" ++ d ++ "' for " ++ a ++ " ID: '" ++ r ++ "'..."),
       Event.readFile d,
       Event.tokenFetch,
       Event.httpPost (apiUrl p l a r) (pyStrip so) contents,
       Event.print ("Successfully created " ++ a ++ " with ID: " ++ r),
       Event.print out] := by
  simp [create_metadata_resource, readFileStep, tokenBlock, curlStep, hr, hg, hs, hc]

theorem create_events_curl_err (env : FileEnv) (p l a r d contents so : String)
    (rc : Int) (so2 se2 : String)
    (hr : env.readResult = ReadResult.ok contents)
    (hg : env.gcloudResult = GcloudResult.ok so)
    (hs : pyStrip so ≠ "")
    (hc : env.curlResult = CurlResult.err rc so2 se2) :
    (create_metadata_resource env p l a r d).1 =
      [Event.print ("Processing '" ++ d ++ "' for " ++ a ++ " ID: '" ++ r ++ "'..."),
       Event.readFile d,
       Event.tokenFetch,
       Event.httpPost (apiUrl p l a r) (pyStrip so) contents,
       Event.print ("\n--- ERROR Creating " ++ a ++ " with ID: " ++ r ++ " ---"),
       Event.print ("  API URL: " ++ apiUrl p l a r),
       Event.print ("  Definition File: " ++ d),
       Event.print ("  Return Code: " ++ toString rc),
       Event.print ("  Stdout: " ++ so2),
       Event.print ("  Stderr: " ++ se2),
       Event.print "--------------------------------------------------\n"] := by
  simp [create_metadata_resource, readFileStep, tokenBlock, curlStep, hr, hg, hs, hc]

theorem create_events_curl_exc (env : FileEnv) (p l a r d contents so m : String)
    (hr : env.readResult = ReadResult.ok contents)
    (hg : env.gcloudResult = GcloudResult.ok so)
    (hs : pyStrip so ≠ "")
    (hc : env.curlResult = CurlResult.exc m) :
    (create_metadata_resource env p l a r d).1 =
      [Event.print ("Processing '" ++ d ++ "' for " ++ a ++ " ID: '" ++ r ++ "'..."),
       Event.readFile d,
       Event.tokenFetch,
       Event.httpPost (apiUrl p l a r) (pyStrip so) contents,
       Event.print ("An unexpected error occurred while calling curl for " ++ r ++ ": " ++ m)] := by
  simp [create_metadata_resource, readFileStep, tokenBlock, curlStep, excText, hr, hg, hs, hc]

theorem processFile_skip (menv : MainEnv) (p l d f : String)
    (h : resourceIdOfFilename f = "") :
    processFile menv p l d f =
      ([Event.print ("Warning: Could not derive a valid resource ID from filename '"
        ++ f ++ "'. Skipping this file.")], Except.ok ()) := by
  simp [processFile, h]

theorem processFile_create (menv : MainEnv) (p l d f : String)
    (h : resourceIdOfFilename f ≠ "") :
    processFile menv p l d f =
      create_metadata_resource (menv.fileEnv f) p l "aspectTypes"
        (resourceIdOfFilename f) (pyJoin d f) := by
  simp [processFile, h]

theorem mainRun_no_dir (menv : MainEnv) (p l d : String) (h : menv.dirExists = false) :
    mainRun menv p l d =
      ([Event.print ("Error: Definitions directory not found: '" ++ d ++ "'")],
        Except.ok ()) := by
  simp [mainRun, h]

theorem mainRun_no_files (menv : MainEnv) (p l d : String)
    (h1 : menv.dirExists = true) (h2 : menv.entries.filter endsWithJson = []) :
    mainRun menv p l d =
      ([Event.print ("No .json files found in '" ++ d
        ++ "'. Please ensure your definition files are present and end with '.json'. Exiting.")],
        Except.ok ()) := by
  simp [mainRun, h1, h2]

theorem mainRun_files_raw (menv : MainEnv) (p l d : String)
    (h1 : menv.dirExists = true) (h2 : menv.entries.filter endsWithJson ≠ []) :
    mainRun menv p l d =
      (Event.print ("Found " ++ toString (menv.entries.filter endsWithJson).length
          ++ " JSON definition file(s) in '" ++ d ++ "'.")
        :: (mainLoop menv p l d (sortStrings (menv.entries.filter endsWithJson))).1,
       (mainLoop menv p l d (sortStrings (menv.entries.filter endsWithJson))).2) := by
  rw [mainRun]
  simp only [h1, Bool.not_true, Bool.false_eq_true, if_false]
  rw [if_neg (by simpa [List.isEmpty_iff] using h2)]

theorem mainRun_files (menv : MainEnv) (p l d : String)
    (h1 : menv.dirExists = true) (h2 : menv.entries.filter endsWithJson ≠ [])
    (hg : ∀ f, (menv.fileEnv f).gcloudResult ≠ GcloudResult.osError) :
    mainRun menv p l d =
      (Event.print ("Found " ++ toString (menv.entries.filter endsWithJson).length
          ++ " JSON definition file(s) in '" ++ d ++ "'.")
        :: ((sortStrings (menv.entries.filter endsWithJson)).map
            (fun f => (processFile menv p l d f).1)).flatten,
        Except.ok ()) := by
  rw [mainRun_files_raw menv p l d h1 h2, mainLoop_events_join menv p l d _ hg]

/-! ## The lexicographic order used by `sorted` -/

theorem char_eq_of_toNat_eq {x y : Char} (h : x.toNat = y.toNat) : x = y :=
  Char.ext (UInt32.ext h)

theorem lexLe_cons_iff (x y : Char) (xs ys : List Char) :
    lexLe (x :: xs) (y :: ys) = true ↔
      (x.toNat < y.toNat ∨ (x.toNat = y.toNat ∧ lexLe xs ys = true)) := by
  rcases Nat.lt_trichotomy x.toNat y.toNat with h | h | h
  · simp [lexLe, h]
  · simp [lexLe, h, Nat.lt_irrefl]
  · have h1 : ¬ x.toNat < y.toNat := by omega
    have h2 : x.toNat ≠ y.toNat := by omega
    simp [lexLe, h, h1, h2]

theorem lexLe_total (a b : List Char) : lexLe a b = true ∨ lexLe b a = true := by
  induction a generalizing b with
  | nil => left; rfl
  | cons x xs ih =>
    cases b with
    | nil => right; rfl
    | cons y ys =>
      rcases Nat.lt_trichotomy x.toNat y.toNat with h | h | h
      · left; rw [lexLe_cons_iff]; exact Or.inl h
      · rcases ih ys with h3 | h3
        · left; rw [lexLe_cons_iff]; exact Or.inr ⟨h, h3⟩
        · right; rw [lexLe_cons_iff]; exact Or.inr ⟨h.symm, h3⟩
      · right; rw [lexLe_cons_iff]; exact Or.inl h

theorem lexLe_trans {a b c : List Char} (h1 : lexLe a b = true) (h2 : lexLe b c = true) :
    lexLe a c = true := by
  induction a generalizing b c with
  | nil => rfl
  | cons x xs ih =>
    cases b with
    | nil => simp [lexLe] at h1
    | cons y ys =>
      cases c with
      | nil => simp [lexLe] at h2
      | cons z zs =>
        rw [lexLe_cons_iff] at h1 h2 ⊢
        rcases h1 with h1 | ⟨h1e, h1r⟩
        · rcases h2 with h2 | ⟨h2e, _⟩
          · exact Or.inl (Nat.lt_trans h1 h2)
          · exact Or.inl (h2e ▸ h1)
        · rcases h2 with h2 | ⟨h2e, h2r⟩
          · exact Or.inl (h1e ▸ h2)
          · exact Or.inr ⟨h1e.trans h2e, ih h1r h2r⟩

theorem lexLe_antisymm {a b : List Char} (h1 : lexLe a b = true) (h2 : lexLe b a = true) :
    a = b := by
  induction a generalizing b with
  | nil =>
    cases b with
    | nil => rfl
    | cons y ys => simp [lexLe] at h2
  | cons x xs ih =>
    cases b with
    | nil => simp [lexLe] at h1
    | cons y ys =>
      rw [lexLe_cons_iff] at h1 h2
      rcases h1 with h1 | ⟨h1e, h1r⟩
      · rcases h2 with h2 | ⟨h2e, _⟩
        · exact absurd (Nat.lt_trans h1 h2) (Nat.lt_irrefl _)
        · exact absurd h1 (by omega)
      · rcases h2 with h2 | ⟨h2e, h2r⟩
        · exact absurd h2 (by omega)
        · rw [char_eq_of_toNat_eq h1e, ih h1r h2r]

instance : IsTotal String strLe := ⟨fun a b => lexLe_total a.data b.data⟩

instance : IsTrans String strLe := ⟨fun _ _ _ h1 h2 => lexLe_trans h1 h2⟩

instance : IsAntisymm String strLe :=
  ⟨fun _ _ h1 h2 => String.ext (lexLe_antisymm h1 h2)⟩

/-- Sorting is a permutation of the input. -/
theorem sortStrings_perm (l : List String) : (sortStrings l).Perm l :=
  List.perm_insertionSort strLe l

/-- Sorting is ascending w.r.t. the lexicographic order. -/
theorem sortStrings_sorted (l : List String) : (sortStrings l).Sorted strLe :=
  List.sorted_insertionSort strLe l

/-- Any two permuted inputs sort to the same list: the processing order is
determined by the set of names alone. -/
theorem sortStrings_perm_eq {l₁ l₂ : List String} (h : l₁.Perm l₂) :
    sortStrings l₁ = sortStrings l₂ :=
  List.eq_of_perm_of_sorted ((sortStrings_perm l₁).trans (h.trans (sortStrings_perm l₂).symm))
    (sortStrings_sorted l₁) (sortStrings_sorted l₂)

/-! ## Slug facts for all-non-alphanumeric stems -/

theorem not_alnum_facts {c : Char} (h : isAsciiAlnum c = false) :
    ¬(65 ≤ c.toNat ∧ c.toNat ≤ 90) ∧ ¬(97 ≤ c.toNat ∧ c.toNat ≤ 122)
      ∧ ¬(48 ≤ c.toNat ∧ c.toNat ≤ 57) := by
  simp only [isAsciiAlnum, Bool.or_eq_false_iff, Bool.and_eq_false_iff,
    decide_eq_false_iff_not, Nat.not_le] at h
  omega

theorem pyLowerChar_of_not_alnum {c : Char} (h : isAsciiAlnum c = false) :
    pyLowerChar c = c := by
  have hf := (not_alnum_facts h).1
  have hc : (65 ≤ c.toNat && c.toNat ≤ 90) = false := by
    simp only [Bool.and_eq_false_iff, decide_eq_false_iff_not, Nat.not_le]
    omega
  simp [pyLowerChar, hc]

theorem isLowerAlnum_of_not_alnum {c : Char} (h : isAsciiAlnum c = false) :
    isLowerAlnum c = false := by
  have hf := not_alnum_facts h
  simp only [isLowerAlnum, Bool.or_eq_false_iff, Bool.and_eq_false_iff,
    decide_eq_false_iff_not, Nat.not_le]
  omega

theorem subAux_true_all_non (s : List Char) (h : ∀ c ∈ s, isLowerAlnum c = false) :
    subAux true s = [] := by
  induction s with
  | nil => rfl
  | cons c cs ih =>
    have hc := h c (List.mem_cons_self c cs)
    simp only [subAux, hc, Bool.false_eq_true, if_false, if_pos]
    exact ih (fun x hx => h x (List.mem_cons_of_mem c hx))

/-- When every (lowered) character falls outside `[a-z0-9]`, the substituted
string is all hyphens and stripping them leaves nothing. -/
theorem stripHyphens_subNonAlnum_all_non (s : List Char)
    (h : ∀ c ∈ s, isLowerAlnum c = false) :
    stripHyphens (subNonAlnum s) = [] := by
  cases s with
  | nil => rfl
  | cons c cs =>
    have hc := h c (List.mem_cons_self c cs)
    have ht : subAux true cs = [] :=
      subAux_true_all_non cs (fun x hx => h x (List.mem_cons_of_mem c hx))
    simp only [subNonAlnum, subAux, hc, Bool.false_eq_true, if_false, ht]
    rfl

/-- A filename whose `splitext` base has only non-alphanumeric characters
derives the empty resource ID. -/
theorem resourceId_empty_of_all_non_alnum (f : String)
    (h : (splitextBase f.data).all (fun c => !(isAsciiAlnum c)) = true) :
    resourceIdOfFilename f = "" := by
  unfold resourceIdOfFilename
  have hall : ∀ c ∈ pyLower (splitextBase f.data), isLowerAlnum c = false := by
    intro c hc
    obtain ⟨x, hx, hcx⟩ := List.mem_map.mp hc
    have hxa : isAsciiAlnum x = false := by
      have := (List.all_eq_true.mp h) x hx
      simpa using this
    rw [← hcx, pyLowerChar_of_not_alnum hxa]
    exact isLowerAlnum_of_not_alnum hxa
  rw [stripHyphens_subNonAlnum_all_non _ hall]

/-! ## More trace helpers -/

theorem mainRun_snd_ok (menv : MainEnv) (p l d : String)
    (hg : ∀ f, (menv.fileEnv f).gcloudResult ≠ GcloudResult.osError) :
    (mainRun menv p l d).2 = Except.ok () := by
  by_cases h : menv.dirExists = true
  · by_cases h2 : menv.entries.filter endsWithJson = []
    · rw [mainRun_no_files menv p l d h h2]
    · rw [mainRun_files menv p l d h h2 hg]
  · rw [mainRun_no_dir menv p l d (by simpa using h)]

theorem create_posts_le_one (env : FileEnv) (p l a r d : String) :
    (create_metadata_resource env p l a r d).1.countP isPost ≤ 1 := by
  obtain ⟨rr, gr, cr⟩ := env
  cases rr with
  | fileNotFound =>
    rw [create_events_read_fnf _ p l a r d rfl]
    simp [List.countP_cons, isPost]
  | otherError m =>
    rw [create_events_read_exc _ p l a r d m rfl]
    simp [List.countP_cons, isPost]
  | ok contents =>
    cases gr with
    | osError =>
      rw [create_gcloud_oserror _ p l a r d contents rfl rfl]
      simp [List.countP_cons, isPost]
    | err rc so se =>
      rw [create_events_token_err _ p l a r d contents rc so se rfl rfl]
      simp [List.countP_cons, isPost]
    | ok so =>
      by_cases hs : pyStrip so = ""
      · rw [create_events_token_empty _ p l a r d contents so rfl rfl hs]
        simp [List.countP_cons, isPost]
      · cases cr with
        | ok out =>
          rw [create_events_curl_ok _ p l a r d contents so out rfl rfl hs rfl]
          simp [List.countP_cons, isPost]
        | err rc2 so2 se2 =>
          rw [create_events_curl_err _ p l a r d contents so rc2 so2 se2 rfl rfl hs rfl]
          simp [List.countP_cons, isPost]
        | exc m =>
          rw [create_events_curl_exc _ p l a r d contents so m rfl rfl hs rfl]
          simp [List.countP_cons, isPost]

theorem processFile_posts_le_one (menv : MainEnv) (p l d f : String) :
    (processFile menv p l d f).1.countP isPost ≤ 1 := by
  by_cases h : resourceIdOfFilename f = ""
  · rw [processFile_skip menv p l d f h]
    simp [List.countP_cons, isPost]
  · rw [processFile_create menv p l d f h]
    exact create_posts_le_one _ _ _ _ _ _

theorem create_tokenFetch_once (env : FileEnv) (p l a r d contents : String)
    (hr : env.readResult = ReadResult.ok contents) :
    (create_metadata_resource env p l a r d).1.countP isTokenFetch = 1 := by
  obtain ⟨rr, gr, cr⟩ := env
  cases hr
  cases gr with
  | osError =>
    rw [create_gcloud_oserror _ p l a r d contents rfl rfl]
    simp [List.countP_cons, isTokenFetch]
  | err rc so se =>
    rw [create_events_token_err _ p l a r d contents rc so se rfl rfl]
    simp [List.countP_cons, isTokenFetch]
  | ok so =>
    by_cases hs : pyStrip so = ""
    · rw [create_events_token_empty _ p l a r d contents so rfl rfl hs]
      simp [List.countP_cons, isTokenFetch]
    · cases cr with
      | ok out =>
        rw [create_events_curl_ok _ p l a r d contents so out rfl rfl hs rfl]
        simp [List.countP_cons, isTokenFetch]
      | err rc2 so2 se2 =>
        rw [create_events_curl_err _ p l a r d contents so rc2 so2 se2 rfl rfl hs rfl]
        simp [List.countP_cons, isTokenFetch]
      | exc m =>
        rw [create_events_curl_exc _ p l a r d contents so m rfl rfl hs rfl]
        simp [List.countP_cons, isTokenFetch]

/-! ## Claim theorems -/

/-- C2 counterexample: with the definition file readable but the `gcloud`
binary absent (the token subprocess raises `FileNotFoundError` at line 41),
the exception matches neither `except` clause of the token block and
propagates out of `create_metadata_resource` — refuting the claim that no
failure is propagated to the caller as an exception. -/
theorem C2_failures_reported_counterexample :
    (create_metadata_resource
        ⟨ReadResult.ok "body", GcloudResult.osError, CurlResult.ok "resp"⟩
        "pr" "global" "aspectTypes" "a" "defs/a.json").2 =
      Except.error PyExc.fileNotFoundError := rfl

/-- C2 (amended): each enumerated failure mode — missing definitions
directory, missing definition file, unreadable file, token subprocess
completing with a non-zero exit, empty token, non-2xx HTTP response (a
`curl --fail` non-zero exit), and any other exception during the network
call — is caught locally and reported as a printed human-readable message,
and under those failure modes neither `main` nor `create_metadata_resource`
propagates an exception; however, an OS-level failure to launch the token
subprocess itself (`FileNotFoundError` when the `gcloud` binary is absent)
is caught by no handler and propagates out of the run as an exception (the
source leaves the analogous OS error of `os.listdir` at line 113 uncaught as
well, outside this model). -/
theorem C2_failures_reported_amended (menv : MainEnv) (env : FileEnv) (p l a r d dir : String) :
    ((∀ f, (menv.fileEnv f).gcloudResult ≠ GcloudResult.osError) →
      (mainRun menv p l dir).2 = Except.ok ()) ∧
    (env.gcloudResult ≠ GcloudResult.osError →
      (create_metadata_resource env p l a r d).2 = Except.ok ()) ∧
    (∀ contents, env.readResult = ReadResult.ok contents →
      env.gcloudResult = GcloudResult.osError →
      (create_metadata_resource env p l a r d).2 = Except.error PyExc.fileNotFoundError) ∧
    (menv.dirExists = false →
      Event.print ("Error: Definitions directory not found: '" ++ dir ++ "'")
        ∈ (mainRun menv p l dir).1) ∧
    (env.readResult = ReadResult.fileNotFound →
      Event.print ("Error: Definition file not found: " ++ d)
        ∈ (create_metadata_resource env p l a r d).1) ∧
    (∀ m, env.readResult = ReadResult.otherError m →
      Event.print ("Error reading file " ++ d ++ ": " ++ m)
        ∈ (create_metadata_resource env p l a r d).1) ∧
    (∀ contents rc so se, env.readResult = ReadResult.ok contents →
      env.gcloudResult = GcloudResult.err rc so se →
      Event.print "Error: Could not obtain Google Cloud access token."
        ∈ (create_metadata_resource env p l a r d).1 ∧
      Event.print ("Stderr: " ++ se) ∈ (create_metadata_resource env p l a r d).1) ∧
    (∀ contents so, env.readResult = ReadResult.ok contents →
      env.gcloudResult = GcloudResult.ok so → pyStrip so = "" →
      Event.print ("Error obtaining access token: "
          ++ "Empty access token received from gcloud. Please ensure gcloud CLI is configured correctly.")
        ∈ (create_metadata_resource env p l a r d).1) ∧
    (∀ contents so rc so2 se2, env.readResult = ReadResult.ok contents →
      env.gcloudResult = GcloudResult.ok so → pyStrip so ≠ "" →
      env.curlResult = CurlResult.err rc so2 se2 →
      Event.print ("\n--- ERROR Creating " ++ a ++ " with ID: " ++ r ++ " ---")
        ∈ (create_metadata_resource env p l a r d).1) ∧
    (∀ contents so m, env.readResult = ReadResult.ok contents →
      env.gcloudResult = GcloudResult.ok so → pyStrip so ≠ "" →
      env.curlResult = CurlResult.exc m →
      Event.print ("An unexpected error occurred while calling curl for " ++ r ++ ": " ++ m)
        ∈ (create_metadata_resource env p l a r d).1) := by
  refine ⟨fun hg => mainRun_snd_ok menv p l dir hg,
    fun hg => create_snd_ok env p l a r d hg, ?_, ?_, ?_, ?_, ?_, ?_, ?_, ?_⟩
  · intro contents h1 h2
    rw [create_gcloud_oserror env p l a r d contents h1 h2]
  · intro h
    rw [mainRun_no_dir menv p l dir h]
    simp
  · intro h
    rw [create_events_read_fnf env p l a r d h]
    simp
  · intro m h
    rw [create_events_read_exc env p l a r d m h]
    simp
  · intro contents rc so se h1 h2
    rw [create_events_token_err env p l a r d contents rc so se h1 h2]
    simp
  · intro contents so h1 h2 h3
    rw [create_events_token_empty env p l a r d contents so h1 h2 h3]
    simp
  · intro contents so rc so2 se2 h1 h2 h3 h4
    rw [create_events_curl_err env p l a r d contents so rc so2 se2 h1 h2 h3 h4]
    simp
  · intro contents so m h1 h2 h3 h4
    rw [create_events_curl_exc env p l a r d contents so m h1 h2 h3 h4]
    simp

/-- Witness for the amended C2: with a missing definition file, the error
message is printed and the call still returns normally. -/
theorem C2_failures_reported_amended_witness :
    Event.print ("Error: Definition file not found: " ++ "defs/a.json")
      ∈ (create_metadata_resource
          ⟨ReadResult.fileNotFound, GcloudResult.ok "tok", CurlResult.ok "resp"⟩
          "pr" "global" "aspectTypes" "a" "defs/a.json").1 :=
  (C2_failures_reported_amended
      ⟨true, [], fun _ => ⟨ReadResult.fileNotFound, GcloudResult.ok "tok", CurlResult.ok "resp"⟩⟩
      ⟨ReadResult.fileNotFound, GcloudResult.ok "tok", CurlResult.ok "resp"⟩
      "pr" "global" "aspectTypes" "a" "defs/a.json" "defs").2.2.2.2.1 rfl

/-- C3: a filename whose `splitext` stem consists only of
non-alphanumeric characters derives the empty identifier, and the loop skips
it with a printed warning: its trace is exactly that warning, so the file is
never opened and no token fetch or HTTP request happens for it. -/
theorem C3_non_alnum_stem_skipped (menv : MainEnv) (p l d f : String)
    (h : (splitextBase f.data).all (fun c => !(isAsciiAlnum c)) = true) :
    resourceIdOfFilename f = "" ∧
    processFile menv p l d f =
      ([Event.print ("Warning: Could not derive a valid resource ID from filename '"
        ++ f ++ "'. Skipping this file.")], Except.ok ()) ∧
    (processFile menv p l d f).1.all (fun e => !(isRead e) && !(isPost e)) = true := by
  have hid := resourceId_empty_of_all_non_alnum f h
  refine ⟨hid, processFile_skip menv p l d f hid, ?_⟩
  rw [processFile_skip menv p l d f hid]
  simp [isRead, isPost]

/-- Witness for C3 at the concrete filename `"___.json"`. -/
theorem C3_non_alnum_stem_skipped_witness :
    resourceIdOfFilename "___.json" = "" ∧
    processFile ⟨true, ["___.json"], fun _ =>
        ⟨ReadResult.ok "body", GcloudResult.ok "tok", CurlResult.ok "resp"⟩⟩
      "pr" "global" "defs" "___.json" =
      ([Event.print ("Warning: Could not derive a valid resource ID from filename '"
        ++ "___.json" ++ "'. Skipping this file.")], Except.ok ()) ∧
    (processFile ⟨true, ["___.json"], fun _ =>
        ⟨ReadResult.ok "body", GcloudResult.ok "tok", CurlResult.ok "resp"⟩⟩
      "pr" "global" "defs" "___.json").1.all (fun e => !(isRead e) && !(isPost e)) = true :=
  C3_non_alnum_stem_skipped _ "pr" "global" "defs" "___.json" (by decide)

/-- C4 counterexample: when the first file's `gcloud` subprocess cannot be
launched (binary absent), the `FileNotFoundError` propagates out of
`create_metadata_resource` and aborts the loop — the second file is never
read (the trace has a single file-read event) — refuting the claim that
processing continues with the next file after any per-file failure. -/
theorem C4_continue_after_failure_counterexample :
    (mainLoop ⟨true, ["a.json", "b.json"], fun _ =>
        ⟨ReadResult.ok "body", GcloudResult.osError, CurlResult.ok "resp"⟩⟩
      "pr" "global" "defs" ["a.json", "b.json"]).2 =
      Except.error PyExc.fileNotFoundError ∧
    (mainLoop ⟨true, ["a.json", "b.json"], fun _ =>
        ⟨ReadResult.ok "body", GcloudResult.osError, CurlResult.ok "resp"⟩⟩
      "pr" "global" "defs" ["a.json", "b.json"]).1.countP isRead = 1 :=
  ⟨rfl, rfl⟩

/-- C4 (amended): after any caught per-file failure (file read error, token
subprocess non-zero exit, empty token, or HTTP error) processing continues
with the next file in the list — the loop's trace is the concatenation of
every listed file's own trace, in order, with no retry (at most one POST per
file) and no rollback (earlier files' events are left untouched) — provided
no listed file's `gcloud` launch fails; an uncaught OS-level failure to
launch the token subprocess instead aborts the loop where it happens,
leaving the remaining files unprocessed. -/
theorem C4_continue_after_failure_amended (menv : MainEnv) (p l d : String)
    (fs : List String) :
    ((∀ f, (menv.fileEnv f).gcloudResult ≠ GcloudResult.osError) →
      (mainLoop menv p l d fs).2 = Except.ok () ∧
      (mainLoop menv p l d fs).1 =
        (fs.map (fun f => (processFile menv p l d f).1)).flatten) ∧
    (∀ f : String, (processFile menv p l d f).1.countP isPost ≤ 1) ∧
    (∀ f fs2 evs e, processFile menv p l d f = (evs, Except.error e) →
      mainLoop menv p l d (f :: fs2) = (evs, Except.error e)) := by
  refine ⟨fun hg => ⟨by rw [mainLoop_events_join menv p l d fs hg],
    by rw [mainLoop_events_join menv p l d fs hg]⟩, ?_, ?_⟩
  · intro f
    exact processFile_posts_le_one menv p l d f
  · intro f fs2 evs e h
    exact mainLoop_abort menv p l d f fs2 evs e h

/-- Witness for the amended C4 at a concrete two-file list with one failing
(caught) file. -/
theorem C4_continue_after_failure_amended_witness :
    (mainLoop ⟨true, ["a.json", "b.json"], fun _ =>
        ⟨ReadResult.fileNotFound, GcloudResult.ok "tok", CurlResult.ok "resp"⟩⟩
      "pr" "global" "defs" ["a.json", "b.json"]).1 =
      (["a.json", "b.json"].map (fun f =>
        (processFile ⟨true, ["a.json", "b.json"], fun _ =>
            ⟨ReadResult.fileNotFound, GcloudResult.ok "tok", CurlResult.ok "resp"⟩⟩
          "pr" "global" "defs" f).1)).flatten :=
  ((C4_continue_after_failure_amended ⟨true, ["a.json", "b.json"], fun _ =>
      ⟨ReadResult.fileNotFound, GcloudResult.ok "tok", CurlResult.ok "resp"⟩⟩
    "pr" "global" "defs" ["a.json", "b.json"]).1 (fun _ h => nomatch h)).2

/-- C5: a fully successful file issues exactly one HTTP POST, and its
URL is the fixed template instantiated with the CLI project ID, the
location, and the resource ID derived from the filename. -/
theorem C5_post_url_template (menv : MainEnv) (p l d f contents so out : String)
    (hid : resourceIdOfFilename f ≠ "")
    (hr : (menv.fileEnv f).readResult = ReadResult.ok contents)
    (hg : (menv.fileEnv f).gcloudResult = GcloudResult.ok so)
    (hs : pyStrip so ≠ "")
    (hc : (menv.fileEnv f).curlResult = CurlResult.ok out) :
    (processFile menv p l d f).1.filter isPost =
      [Event.httpPost (specUrl p l (resourceIdOfFilename f)) (pyStrip so) contents] := by
  rw [processFile_create menv p l d f hid,
    create_events_curl_ok _ p l "aspectTypes" (resourceIdOfFilename f) (pyJoin d f)
      contents so out hr hg hs hc]
  simp [List.filter_cons, isPost, apiUrl_eq_specUrl]

/-- Witness for C5 at a concrete successful file. -/
theorem C5_post_url_template_witness :
    (processFile ⟨true, ["my_aspect.json"], fun _ =>
        ⟨ReadResult.ok "bodytext", GcloudResult.ok " tok \n", CurlResult.ok "resp"⟩⟩
      "pr" "global" "defs" "my_aspect.json").1.filter isPost =
      [Event.httpPost (specUrl "pr" "global" (resourceIdOfFilename "my_aspect.json"))
        (pyStrip " tok \n") "bodytext"] :=
  C5_post_url_template _ "pr" "global" "defs" "my_aspect.json" "bodytext" " tok \n" "resp"
    (by decide) rfl rfl (by decide) rfl

/-- C6: every file that reaches the network call sends exactly one HTTP
POST whose request body is the definition file's entire contents, unmodified
— whatever the call's outcome. -/
theorem C6_post_body_verbatim (env : FileEnv) (p l a r d contents so : String)
    (hr : env.readResult = ReadResult.ok contents)
    (hg : env.gcloudResult = GcloudResult.ok so)
    (hs : pyStrip so ≠ "") :
    ∃ u t, (create_metadata_resource env p l a r d).1.filter isPost =
      [Event.httpPost u t contents] := by
  obtain ⟨rr, gr, cr⟩ := env
  cases hr
  cases hg
  cases cr with
  | ok out =>
    rw [create_events_curl_ok _ p l a r d contents so out rfl rfl hs rfl]
    exact ⟨apiUrl p l a r, pyStrip so, by simp [List.filter_cons, isPost]⟩
  | err rc2 so2 se2 =>
    rw [create_events_curl_err _ p l a r d contents so rc2 so2 se2 rfl rfl hs rfl]
    exact ⟨apiUrl p l a r, pyStrip so, by simp [List.filter_cons, isPost]⟩
  | exc m =>
    rw [create_events_curl_exc _ p l a r d contents so m rfl rfl hs rfl]
    exact ⟨apiUrl p l a r, pyStrip so, by simp [List.filter_cons, isPost]⟩

/-- Witness for C6 with a failing HTTP call: the attempted body is still the
verbatim file contents. -/
theorem C6_post_body_verbatim_witness :
    ∃ u t, (create_metadata_resource
        ⟨ReadResult.ok "rawbody", GcloudResult.ok "tok", CurlResult.err 22 "out" "err"⟩
        "pr" "global" "aspectTypes" "a" "defs/a.json").1.filter isPost =
      [Event.httpPost u t "rawbody"] :=
  C6_post_body_verbatim _ "pr" "global" "aspectTypes" "a" "defs/a.json" "rawbody" "tok"
    rfl rfl (by decide)

/-- C7: only the entries ending in `".json"` are selected: when none
exist the run prints the no-files message and stops with no event besides
that print, and otherwise the whole trace is the count message followed by
the traces of exactly the selected files (sorted), so every other directory
entry contributes nothing; the full-trace statement carries the proviso that
no selected file's `gcloud` launch fails, since such an uncaught failure
truncates the run (see the C2 and C4 corrections). -/
theorem C7_selection_json_only (menv : MainEnv) (p l d : String)
    (hdir : menv.dirExists = true) :
    (menv.entries.filter endsWithJson = [] →
      mainRun menv p l d =
        ([Event.print ("No .json files found in '" ++ d
          ++ "'. Please ensure your definition files are present and end with '.json'. Exiting.")],
          Except.ok ())) ∧
    (menv.entries.filter endsWithJson ≠ [] →
      (∀ f, (menv.fileEnv f).gcloudResult ≠ GcloudResult.osError) →
      (mainRun menv p l d).1 =
        Event.print ("Found " ++ toString (menv.entries.filter endsWithJson).length
            ++ " JSON definition file(s) in '" ++ d ++ "'.")
          :: ((sortStrings (menv.entries.filter endsWithJson)).map
              (fun f => (processFile menv p l d f).1)).flatten) := by
  constructor
  · intro h2
    exact mainRun_no_files menv p l d hdir h2
  · intro h2 hg
    rw [mainRun_files menv p l d hdir h2 hg]

/-- Witness for C7: a directory whose only entry is `"a.txt"` triggers the
no-files message. -/
theorem C7_selection_json_only_witness :
    mainRun ⟨true, ["a.txt"], fun _ =>
        ⟨ReadResult.ok "body", GcloudResult.ok "tok", CurlResult.ok "resp"⟩⟩
      "pr" "global" "defs" =
      ([Event.print ("No .json files found in '" ++ "defs"
        ++ "'. Please ensure your definition files are present and end with '.json'. Exiting.")],
        Except.ok ()) :=
  (C7_selection_json_only _ "pr" "global" "defs" rfl).1 (by decide)

/-- C8: processing is strictly sequential — when a file's own processing
returns normally (every outcome except an uncaught `gcloud` launch failure,
see the C2 and C4 corrections), the trace of `f :: fs` is `f`'s complete
trace followed by the rest — the access token is fetched exactly once per
file that is read (hence re-fetched for every file, never reused), and on
the success path the per-file order is: processing print, file read, token
fetch, HTTP call, result prints. -/
theorem C8_sequential_processing (menv : MainEnv) (p l d f : String) (fs : List String)
    (env : FileEnv) (a r dp contents so out : String) :
    ((menv.fileEnv f).gcloudResult ≠ GcloudResult.osError →
      (mainLoop menv p l d (f :: fs)).1 =
      (processFile menv p l d f).1 ++ (mainLoop menv p l d fs).1) ∧
    (env.readResult = ReadResult.ok contents →
      (create_metadata_resource env p l a r dp).1.countP isTokenFetch = 1) ∧
    (env.readResult = ReadResult.ok contents → env.gcloudResult = GcloudResult.ok so →
      pyStrip so ≠ "" → env.curlResult = CurlResult.ok out →
      (create_metadata_resource env p l a r dp).1 =
        [Event.print ("Processing '" ++ dp ++ "' for " ++ a ++ " ID: '" ++ r ++ "'..."),
         Event.readFile dp,
         Event.tokenFetch,
         Event.httpPost (apiUrl p l a r) (pyStrip so) contents,
         Event.print ("Successfully created " ++ a ++ " with ID: " ++ r),
         Event.print out]) := by
  refine ⟨?_, ?_, ?_⟩
  · intro hgf
    have hpfok := processFile_snd_ok menv p l d f hgf
    cases hpf : processFile menv p l d f with
    | mk evs rres =>
      rw [hpf] at hpfok
      cases rres with
      | error e => exact absurd hpfok (by simp)
      | ok u => simp [mainLoop, hpf]
  · intro hr
    exact create_tokenFetch_once env p l a r dp contents hr
  · intro hr hg hs hc
    exact create_events_curl_ok env p l a r dp contents so out hr hg hs hc

/-- Witness for C8 at a concrete successful file. -/
theorem C8_sequential_processing_witness :
    (create_metadata_resource
        ⟨ReadResult.ok "body", GcloudResult.ok "tok", CurlResult.ok "resp"⟩
        "pr" "global" "aspectTypes" "my-aspect" "defs/my_aspect.json").1 =
      [Event.print ("Processing '" ++ "defs/my_aspect.json" ++ "' for " ++ "aspectTypes"
          ++ " ID: '" ++ "my-aspect" ++ "'..."),
       Event.readFile "defs/my_aspect.json",
       Event.tokenFetch,
       Event.httpPost (apiUrl "pr" "global" "aspectTypes" "my-aspect") (pyStrip "tok") "body",
       Event.print ("Successfully created " ++ "aspectTypes" ++ " with ID: " ++ "my-aspect"),
       Event.print "resp"] :=
  (C8_sequential_processing ⟨true, [], fun _ =>
      ⟨ReadResult.ok "body", GcloudResult.ok "tok", CurlResult.ok "resp"⟩⟩
    "pr" "global" "defs" "f.json" []
    ⟨ReadResult.ok "body", GcloudResult.ok "tok", CurlResult.ok "resp"⟩
    "aspectTypes" "my-aspect" "defs/my_aspect.json" "body" "tok" "resp").2.2
    rfl rfl (by decide) rfl

/-- C9: the selected files are processed in ascending lexicographic
order, and the whole run is invariant under any reordering of the directory
listing: two environments differing only by a permutation of `os.listdir`'s
answer produce identical traces. -/
theorem C9_sorted_deterministic (menv1 menv2 : MainEnv) (p l d : String)
    (hdir : menv1.dirExists = menv2.dirExists)
    (henv : menv1.fileEnv = menv2.fileEnv)
    (hperm : menv1.entries.Perm menv2.entries) :
    mainRun menv1 p l d = mainRun menv2 p l d ∧
    (sortStrings (menv1.entries.filter endsWithJson)).Sorted strLe := by
  refine ⟨?_, sortStrings_sorted _⟩
  have hfilter : (menv1.entries.filter endsWithJson).Perm
      (menv2.entries.filter endsWithJson) := hperm.filter endsWithJson
  by_cases h1 : menv1.dirExists = true
  · have h2 : menv2.dirExists = true := hdir ▸ h1
    by_cases he : menv1.entries.filter endsWithJson = []
    · have he2 : menv2.entries.filter endsWithJson = [] := by
        rw [he] at hfilter
        exact hfilter.nil_eq.symm
      rw [mainRun_no_files menv1 p l d h1 he, mainRun_no_files menv2 p l d h2 he2]
    · have he2 : menv2.entries.filter endsWithJson ≠ [] := by
        intro hnil
        rw [hnil] at hfilter
        exact he hfilter.eq_nil
      rw [mainRun_files_raw menv1 p l d h1 he, mainRun_files_raw menv2 p l d h2 he2,
        hfilter.length_eq, sortStrings_perm_eq hfilter,
        mainLoop_congr henv p l d (sortStrings (menv2.entries.filter endsWithJson))]
  · have h1f : menv1.dirExists = false := by simpa using h1
    have h2f : menv2.dirExists = false := hdir ▸ h1f
    rw [mainRun_no_dir menv1 p l d h1f, mainRun_no_dir menv2 p l d h2f]

/-- Witness for C9: swapping two listed entries leaves the run unchanged. -/
theorem C9_sorted_deterministic_witness :
    mainRun ⟨true, ["b.json", "a.json"], fun _ =>
        ⟨ReadResult.ok "body", GcloudResult.ok "tok", CurlResult.ok "resp"⟩⟩
      "pr" "global" "defs" =
    mainRun ⟨true, ["a.json", "b.json"], fun _ =>
        ⟨ReadResult.ok "body", GcloudResult.ok "tok", CurlResult.ok "resp"⟩⟩
      "pr" "global" "defs" :=
  (C9_sorted_deterministic
    ⟨true, ["b.json", "a.json"], fun _ =>
      ⟨ReadResult.ok "body", GcloudResult.ok "tok", CurlResult.ok "resp"⟩⟩
    ⟨true, ["a.json", "b.json"], fun _ =>
      ⟨ReadResult.ok "body", GcloudResult.ok "tok", CurlResult.ok "resp"⟩⟩
    "pr" "global" "defs" rfl rfl (List.Perm.swap "a.json" "b.json" [])).1

/-- C10: when any step before the network call fails — unreadable or
missing definition file, failing token subprocess (non-zero exit or a launch
failure), or empty stripped token — no HTTP POST is issued for that file. -/
theorem C10_no_post_on_early_failure (env : FileEnv) (p l a r d : String) :
    (env.readResult = ReadResult.fileNotFound →
      (create_metadata_resource env p l a r d).1.filter isPost = []) ∧
    (∀ m, env.readResult = ReadResult.otherError m →
      (create_metadata_resource env p l a r d).1.filter isPost = []) ∧
    (∀ contents rc so se, env.readResult = ReadResult.ok contents →
      env.gcloudResult = GcloudResult.err rc so se →
      (create_metadata_resource env p l a r d).1.filter isPost = []) ∧
    (∀ contents, env.readResult = ReadResult.ok contents →
      env.gcloudResult = GcloudResult.osError →
      (create_metadata_resource env p l a r d).1.filter isPost = []) ∧
    (∀ contents so, env.readResult = ReadResult.ok contents →
      env.gcloudResult = GcloudResult.ok so → pyStrip so = "" →
      (create_metadata_resource env p l a r d).1.filter isPost = []) := by
  refine ⟨?_, ?_, ?_, ?_, ?_⟩
  · intro h
    rw [create_events_read_fnf env p l a r d h]
    simp [List.filter_cons, isPost]
  · intro m h
    rw [create_events_read_exc env p l a r d m h]
    simp [List.filter_cons, isPost]
  · intro contents rc so se h1 h2
    rw [create_events_token_err env p l a r d contents rc so se h1 h2]
    simp [List.filter_cons, isPost]
  · intro contents h1 h2
    rw [create_gcloud_oserror env p l a r d contents h1 h2]
    simp [List.filter_cons, isPost]
  · intro contents so h1 h2 h3
    rw [create_events_token_empty env p l a r d contents so h1 h2 h3]
    simp [List.filter_cons, isPost]

/-- Witness for C10: a failing `gcloud` invocation results in no POST. -/
theorem C10_no_post_on_early_failure_witness :
    (create_metadata_resource
        ⟨ReadResult.ok "body", GcloudResult.err 1 "" "auth error", CurlResult.ok "resp"⟩
        "pr" "global" "aspectTypes" "a" "defs/a.json").1.filter isPost = [] :=
  (C10_no_post_on_early_failure _ "pr" "global" "aspectTypes" "a" "defs/a.json").2.2.1
    "body" 1 "" "auth error" rfl rfl

end CreateMetadata
